import Mathlib

/-!
Shallow embedding of the `mo2-mode` Rust crate (src/lib.rs): the `MO2Command`
builder, its two renderers `build` (display string) and `execute` (process
descriptor), and the free helpers `quote_path` and `escape_for_mo2_args`.
Rust `String`/`PathBuf` values are modelled as Lean `String` (the crate only
ever constructs a `PathBuf` from caller text and prints it back with
`display()`); `std::process::Command` is modelled as its observable state:
the program and the ordered argument list exposed by `get_program`/`get_args`.
-/

namespace MO2Mode

/-- Embeds `quote_path` (src/lib.rs): wraps a path in double quotes,
`format!("\"{}\"", path.display())`. -/
def quote_path (path : String) : String :=
  "\"" ++ path ++ "\""

/-- Character-level body of `str::replace('"', "\\\"")`: a single-character
pattern replace is exactly a character-wise substitution, each `"` becomes
the two characters `\` `"`, every other character is kept. -/
def escapeChars : List Char → List Char
  | [] => []
  | c :: cs => if c = '"' then '\\' :: '"' :: escapeChars cs else c :: escapeChars cs

/-- Embeds `escape_for_mo2_args` (src/lib.rs):
`args.replace('"', r#"\""#)` with the single-character pattern `'"'`. -/
def escape_for_mo2_args (args : String) : String :=
  String.mk (escapeChars args.data)

/-- Embeds the `MO2Command` struct (src/lib.rs): launcher path, target
program path, and the accumulated argument tokens. -/
structure MO2Command where
  mo2_path : String
  program_path : String
  arguments : List String
deriving DecidableEq, Repr

/-- Embeds `MO2Command::new`: both paths stored as given, empty argument
vector. -/
def MO2Command.new (mo2_path program_path : String) : MO2Command :=
  { mo2_path := mo2_path, program_path := program_path, arguments := [] }

/-- Embeds `MO2Command::arg`: pushes one token onto `arguments` and returns
the builder. -/
def MO2Command.arg (self : MO2Command) (a : String) : MO2Command :=
  { self with arguments := self.arguments ++ [a] }

/-- Embeds `MO2Command::args`: extends `arguments` with the given tokens in
order and returns the builder. -/
def MO2Command.args (self : MO2Command) (xs : List String) : MO2Command :=
  { self with arguments := self.arguments ++ xs }

/-- Embeds `MO2Command::build`: quotes both paths; with no arguments renders
`"<mo2>" run "<prog>"`, otherwise joins the tokens with single spaces,
escapes quotes, and renders `"<mo2>" run "<prog>" -a "<escaped>"`. -/
def MO2Command.build (self : MO2Command) : String :=
  let mo2_path := quote_path self.mo2_path
  let program_path := quote_path self.program_path
  if self.arguments.isEmpty then
    mo2_path ++ " run " ++ program_path
  else
    let args_string := String.intercalate " " self.arguments
    let escaped_args := escape_for_mo2_args args_string
    mo2_path ++ " run " ++ program_path ++ " -a \"" ++ escaped_args ++ "\""

/-- Observable state of a `std::process::Command`: the program
(`get_program`) and the ordered argument list (`get_args`). -/
structure Command where
  program : String
  args : List String
deriving DecidableEq, Repr

/-- `std::process::Command::new`: program set, no arguments. -/
def Command.new (program : String) : Command :=
  { program := program, args := [] }

/-- `std::process::Command::arg`: appends one argument token. -/
def Command.arg (c : Command) (a : String) : Command :=
  { c with args := c.args ++ [a] }

/-- Embeds `MO2Command::execute`: a `Command` on `mo2_path` with arguments
`run`, the program path, and — when `arguments` is non-empty — `-a`
followed by the space-joined (unescaped) token string. -/
def MO2Command.execute (self : MO2Command) : Command :=
  let cmd := Command.new self.mo2_path
  let cmd := cmd.arg "run"
  let cmd := cmd.arg self.program_path
  if self.arguments.isEmpty then
    cmd
  else
    let cmd := cmd.arg "-a"
    let args_string := String.intercalate " " self.arguments
    cmd.arg args_string

/-- State-passing view of the `&self` method `build`: the call returns the
rendered string together with the receiver state after the call. -/
def MO2Command.buildCall (self : MO2Command) : String × MO2Command :=
  (self.build, self)

/-- State-passing view of the `&self` method `execute`: the call returns the
process descriptor together with the receiver state after the call. -/
def MO2Command.executeCall (self : MO2Command) : Command × MO2Command :=
  (self.execute, self)

/-- One mutation step against the builder: either a single `arg` call or a
batch `args` call. -/
inductive AddOp where
  | one : String → AddOp
  | many : List String → AddOp
deriving DecidableEq, Repr

/-- Runs one `AddOp` against a builder. -/
def AddOp.apply (b : MO2Command) : AddOp → MO2Command
  | .one a => b.arg a
  | .many xs => b.args xs

/-- The tokens an `AddOp` inserts, in order. -/
def AddOp.tokens : AddOp → List String
  | .one a => [a]
  | .many xs => xs

/-- Runs a sequence of `arg`/`args` calls against a builder, left to right. -/
def applyOps : MO2Command → List AddOp → MO2Command
  | b, [] => b
  | b, op :: ops => applyOps (AddOp.apply b op) ops

/-- Closed form of `build`: the rendered display string as a function of the
three builder fields, split on emptiness of the argument list. -/
theorem build_eq (b : MO2Command) :
    b.build = (if b.arguments.isEmpty then
        "\"" ++ b.mo2_path ++ "\"" ++ " run " ++ "\"" ++ b.program_path ++ "\""
      else
        "\"" ++ b.mo2_path ++ "\"" ++ " run " ++ "\"" ++ b.program_path ++ "\"" ++ " -a \""
          ++ escape_for_mo2_args (String.intercalate " " b.arguments) ++ "\"") := by
  cases h : b.arguments.isEmpty <;>
    simp only [MO2Command.build, quote_path, h, if_true, if_false, Bool.false_eq_true,
      String.append_assoc]

/-- Closed form of `execute`: the process descriptor as a function of the
three builder fields, split on emptiness of the argument list. -/
theorem execute_eq (b : MO2Command) :
    b.execute = { program := b.mo2_path
                  args := (if b.arguments.isEmpty then ["run", b.program_path]
                           else ["run", b.program_path, "-a",
                                 String.intercalate " " b.arguments]) } := by
  cases h : b.arguments.isEmpty <;>
    simp only [MO2Command.execute, Command.new, Command.arg, h, if_true, if_false,
      Bool.false_eq_true, List.nil_append, List.cons_append, List.singleton_append]

/-- A sequence of `arg`/`args` calls keeps both paths and appends exactly the
inserted tokens, in insertion order. -/
theorem applyOps_fields (ops : List AddOp) (b : MO2Command) :
    (applyOps b ops).mo2_path = b.mo2_path
    ∧ (applyOps b ops).program_path = b.program_path
    ∧ (applyOps b ops).arguments = b.arguments ++ (ops.map AddOp.tokens).flatten := by
  induction ops generalizing b with
  | nil => simp [applyOps]
  | cons op ops ih =>
    obtain ⟨h1, h2, h3⟩ := ih (AddOp.apply b op)
    cases op <;>
      simp_all [applyOps, AddOp.apply, AddOp.tokens, MO2Command.arg, MO2Command.args,
        List.append_assoc]

/-- C1: for a non-empty argument list, `build` renders
`"<launcher>" run "<target>" -a "<escaped>"` where the escaped text is the
space-join of the tokens in insertion order with every `"` replaced by `\"`
and every other character (backslashes included) kept unchanged. -/
theorem build_renders_escaped_join (launcher target : String) (toks : List String)
    (h : toks ≠ []) :
    ((MO2Command.new launcher target).args toks).build
      = "\"" ++ launcher ++ "\"" ++ " run " ++ "\"" ++ target ++ "\"" ++ " -a \""
        ++ escape_for_mo2_args (String.intercalate " " toks) ++ "\""
    ∧ (escape_for_mo2_args (String.intercalate " " toks)).data
        = (String.intercalate " " toks).data.flatMap
            (fun c => if c = '"' then ['\\', '"'] else [c]) := by
  constructor
  · simp only [MO2Command.build, MO2Command.args, MO2Command.new, quote_path,
      List.nil_append, List.isEmpty_eq_true, h, if_false, String.append_assoc]
  · simp only [escape_for_mo2_args]
    generalize (String.intercalate " " toks).data = l
    induction l with
    | nil => rfl
    | cons c cs ih =>
      by_cases hc : c = '"' <;> simp [escapeChars, hc] <;> simp_all

theorem build_renders_escaped_join_witness :
    (["a\"b"] : List String) ≠ [] ∧
    (((MO2Command.new "L" "T").args ["a\"b"]).build
      = "\"" ++ "L" ++ "\"" ++ " run " ++ "\"" ++ "T" ++ "\"" ++ " -a \""
        ++ escape_for_mo2_args (String.intercalate " " ["a\"b"]) ++ "\""
    ∧ (escape_for_mo2_args (String.intercalate " " ["a\"b"])).data
        = (String.intercalate " " ["a\"b"]).data.flatMap
            (fun c => if c = '"' then ['\\', '"'] else [c])) :=
  ⟨by decide, build_renders_escaped_join "L" "T" ["a\"b"] (by decide)⟩

/-- C2: for a non-empty argument list, `execute` yields a process descriptor
whose program is the launcher path and whose argument list is exactly
`["run", target, "-a", joined]`, the joined text carrying NO quote escaping. -/
theorem execute_renders_process_args (launcher target : String) (toks : List String)
    (h : toks ≠ []) :
    ((MO2Command.new launcher target).args toks).execute
      = { program := launcher
          args := ["run", target, "-a", String.intercalate " " toks] } := by
  simp [MO2Command.execute, MO2Command.args, MO2Command.new, Command.new, Command.arg,
    List.isEmpty_iff, h]

theorem execute_renders_process_args_witness :
    (["x"] : List String) ≠ [] ∧
    ((MO2Command.new "L" "T").args ["x"]).execute
      = { program := "L"
          args := ["run", "T", "-a", String.intercalate " " ["x"]] } :=
  ⟨by decide, execute_renders_process_args "L" "T" ["x"] (by decide)⟩

/-- C3: with non-empty paths and no arguments, `build` renders
`"<launcher>" run "<target>"` with no `-a` clause, and `execute`'s argument
list is exactly `["run", target]`. -/
theorem render_with_empty_arguments (launcher target : String)
    (h₁ : launcher ≠ "") (h₂ : target ≠ "") :
    (MO2Command.new launcher target).build
      = "\"" ++ launcher ++ "\"" ++ " run " ++ "\"" ++ target ++ "\""
    ∧ (MO2Command.new launcher target).execute.args = ["run", target] := by
  constructor
  · simp only [MO2Command.build, MO2Command.new, quote_path, List.isEmpty_nil, if_true,
      String.append_assoc]
  · simp [MO2Command.execute, MO2Command.new, Command.new, Command.arg]

theorem render_with_empty_arguments_witness :
    ("L" : String) ≠ "" ∧ ("T" : String) ≠ "" ∧
    ((MO2Command.new "L" "T").build
      = "\"" ++ "L" ++ "\"" ++ " run " ++ "\"" ++ "T" ++ "\""
    ∧ (MO2Command.new "L" "T").execute.args = ["run", "T"]) :=
  ⟨by decide, by decide, render_with_empty_arguments "L" "T" (by decide) (by decide)⟩

/-- C4: the concrete round-trip scenario renders exactly the documented
command string, with the embedded quotes of the last token escaped. -/
theorem roundtrip_concrete_example :
    (((((MO2Command.new "C:\\Modding\\MO2\\ModOrganizer.exe"
          "d:\\programs\\xedit\\xedit64.exe").arg
        "-sse").arg "-autoexit").arg "-autoload").arg "\"MyPlugin.esp\"").build
      = "\"C:\\Modding\\MO2\\ModOrganizer.exe\" run \"d:\\programs\\xedit\\xedit64.exe\" -a \"-sse -autoexit -autoload \\\"MyPlugin.esp\\\"\"" := by
  decide

/-- C5: rendering is total: for every launcher, target and token list
(empty strings and quote-laden tokens included) both renderers return a
value, and `execute`'s argument list has exactly two or four entries. -/
theorem render_total (launcher target : String) (toks : List String) :
    ∃ s c, (MO2Command.mk launcher target toks).build = s
      ∧ (MO2Command.mk launcher target toks).execute = c
      ∧ c.program = launcher
      ∧ (c.args.length = 2 ∨ c.args.length = 4) := by
  cases toks with
  | nil => exact ⟨_, _, rfl, rfl, rfl, Or.inl rfl⟩
  | cons a as => exact ⟨_, _, rfl, rfl, rfl, Or.inr rfl⟩

/-- C6: for any mixture of single `arg` and batch `args` calls, the builder
holds the inserted tokens in insertion order, and both renderers emit them
space-joined in that same order. -/
theorem insertion_order_preserved (launcher target : String) (ops : List AddOp) :
    (applyOps (MO2Command.new launcher target) ops).arguments
        = (ops.map AddOp.tokens).flatten
    ∧ (applyOps (MO2Command.new launcher target) ops).execute.args
        = (if (ops.map AddOp.tokens).flatten.isEmpty then ["run", target]
           else ["run", target, "-a",
                 String.intercalate " " ((ops.map AddOp.tokens).flatten)])
    ∧ (applyOps (MO2Command.new launcher target) ops).build
        = (if (ops.map AddOp.tokens).flatten.isEmpty then
             "\"" ++ launcher ++ "\"" ++ " run " ++ "\"" ++ target ++ "\""
           else
             "\"" ++ launcher ++ "\"" ++ " run " ++ "\"" ++ target ++ "\"" ++ " -a \""
               ++ escape_for_mo2_args
                    (String.intercalate " " ((ops.map AddOp.tokens).flatten)) ++ "\"") := by
  obtain ⟨h1, h2, h3⟩ := applyOps_fields ops (MO2Command.new launcher target)
  have h3' : (applyOps (MO2Command.new launcher target) ops).arguments
      = (ops.map AddOp.tokens).flatten := by
    simpa [MO2Command.new] using h3
  have h1' : (applyOps (MO2Command.new launcher target) ops).mo2_path = launcher := h1
  have h2' : (applyOps (MO2Command.new launcher target) ops).program_path = target := h2
  refine ⟨h3', ?_, ?_⟩
  · rw [execute_eq, h1', h2', h3']
  · rw [build_eq, h1', h2', h3']

/-- C7: a batch `args` call equals the fold of single `arg` calls over the
token list, from any starting builder state. -/
theorem args_eq_repeated_arg (b : MO2Command) (ts : List String) :
    b.args ts = ts.foldl MO2Command.arg b := by
  induction ts generalizing b with
  | nil => simp [MO2Command.args]
  | cons t ts ih =>
    rw [List.foldl_cons, ← ih]
    simp [MO2Command.args, MO2Command.arg]

/-- C8: `build` and `execute` leave the builder state untouched, so a second
call on the post-call state returns the same rendering. -/
theorem render_has_no_side_effect (b : MO2Command) :
    b.buildCall.2 = b ∧ b.executeCall.2 = b
    ∧ (b.buildCall.2).buildCall.1 = b.buildCall.1
    ∧ (b.executeCall.2).executeCall.1 = b.executeCall.1 :=
  ⟨rfl, rfl, rfl, rfl⟩

/-- C9 counterexample: the constructor accepts empty paths, so a builder
whose `mo2_path` and `program_path` are both empty exists, refuting the
"never empty" part of the claim. -/
theorem new_accepts_empty_paths :
    (MO2Command.new "" "").mo2_path = "" ∧ (MO2Command.new "" "").program_path = "" :=
  ⟨rfl, rfl⟩

/-- C9 amended: both paths are fixed at construction and no sequence of
`arg`/`args` calls changes them; they are empty exactly when the
corresponding constructor input is empty (no non-emptiness validation). -/
theorem paths_set_once_never_modified (launcher target : String) (ops : List AddOp) :
    (applyOps (MO2Command.new launcher target) ops).mo2_path = launcher
    ∧ (applyOps (MO2Command.new launcher target) ops).program_path = target
    ∧ ((applyOps (MO2Command.new launcher target) ops).mo2_path = "" ↔ launcher = "")
    ∧ ((applyOps (MO2Command.new launcher target) ops).program_path = ""
        ↔ target = "") := by
  obtain ⟨h1, h2, _⟩ := applyOps_fields ops (MO2Command.new launcher target)
  refine ⟨h1, h2, ?_, ?_⟩
  · rw [h1]
    exact Iff.rfl
  · rw [h2]
    exact Iff.rfl

/-- C10: a single empty-string token still counts as a non-empty argument
list: `build` keeps the `-a` clause with an empty quoted value and
`execute` ends with an empty fourth token. -/
theorem empty_token_keeps_dash_a (launcher target : String) :
    ((MO2Command.new launcher target).arg "").build
      = "\"" ++ launcher ++ "\"" ++ " run " ++ "\"" ++ target ++ "\"" ++ " -a \""
        ++ escape_for_mo2_args (String.intercalate " " [""]) ++ "\""
    ∧ escape_for_mo2_args (String.intercalate " " [""]) = ""
    ∧ ((MO2Command.new launcher target).arg "").execute
      = { program := launcher
          args := ["run", target, "-a", ""] } := by
  refine ⟨?_, by decide, ?_⟩
  · simp only [MO2Command.build, MO2Command.arg, MO2Command.new, quote_path,
      List.nil_append, List.isEmpty_cons, Bool.false_eq_true, if_false, String.append_assoc]
  · have : String.intercalate " " [""] = "" := by decide
    simp [MO2Command.execute, MO2Command.arg, MO2Command.new, Command.new, Command.arg,
      this]

end MO2Mode
